import Mathlib

/-!
Shallow embedding of `Samples/AzureIoT/main.c` from the azure-sphere-samples
fork.  The connection state machine, retry/backoff policy, poll-loop tick,
device-twin reconciliation, direct-method dispatch and button-edge detection
are translated as pure Lean functions over an explicit state record.

Modelling conventions:
- Machine `int` values are modelled as `Int` (every value handled here is
  tiny, so 32-bit overflow never matters).
- External SDK and OS effects are parameters or emitted event lists:
  the networking probe result, the GPIO read and the setup-dispatch result
  are inputs; telemetry messages, enqueued device-twin reports and GPIO
  writes are returned as lists.
- `iothubClientHandle` is modelled by the Boolean `handle` (non-NULL or
  NULL).  The connection-type-specific dispatch (`SetUpAzureIoTHubClientWithDaa`
  or `...WithDps`) is abstracted by the Booleans `dispatchOk` (the Boolean the
  C dispatch returns) and `dispatchHandle` (whether a non-NULL handle exists
  after the dispatch); configuration validation guarantees the connection
  type is DPS or Direct before the loop runs.
- The device-twin payload is embedded at the level of the parsed JSON value
  (the parson library is an external collaborator); a `none` payload stands
  for a string parson cannot parse.  JSON numbers carry an `Int` stand-in:
  no claim inspects a numeric value, only whether a field is a Boolean.
-/

/-- C enum `GPIO_Value_Type` (`applibs/gpio.h`): electrical level of a pin. -/
inductive GPIO_Value_Type where
  | Low
  | High
deriving DecidableEq

/-- C enum `ExitCode` of `main.c` lines 86-130, one constructor per named
enumerator (the ReadWhoAmI codes are declared in the live enum even though
the function that would return them is commented out). -/
inductive ExitCode where
  | Success
  | TermHandler_SigTerm
  | Main_EventLoopFail
  | ButtonTimer_Consume
  | AzureTimer_Consume
  | Init_EventLoop
  | Init_MessageButton
  | Init_OrientationButton
  | Init_TwinStatusLed
  | Init_TwinRLed
  | Init_TwinGLed
  | Init_TwinBLed
  | Init_ButtonPollTimer
  | Init_AzureTimer
  | Init_AccelTimer
  | Init_OpenMaster
  | Init_SetBusSpeed
  | Init_SetTimeout
  | Init_SetDefaultTarget
  | IsButtonPressed_GetValue
  | Validate_ConnectionType
  | Validate_ScopeId
  | Validate_IotHubHostname
  | Validate_DeviceId
  | InterfaceConnectionStatus_Failed
  | ReadWhoAmI_WriteThenRead
  | ReadWhoAmI_WriteThenReadCompare
  | ReadWhoAmI_Write
  | ReadWhoAmI_Read
  | ReadWhoAmI_WriteReadCompare
  | ReadWhoAmI_PosixWrite
  | ReadWhoAmI_PosixRead
  | ReadWhoAmI_PosixCompare
deriving DecidableEq

/-- The integer value each `ExitCode` enumerator has in `main.c`. -/
def exitCodeValue : ExitCode → Nat
  | .Success => 0
  | .TermHandler_SigTerm => 1
  | .Main_EventLoopFail => 2
  | .ButtonTimer_Consume => 3
  | .AzureTimer_Consume => 4
  | .Init_EventLoop => 5
  | .Init_MessageButton => 6
  | .Init_OrientationButton => 7
  | .Init_TwinStatusLed => 8
  | .Init_TwinRLed => 21
  | .Init_TwinGLed => 22
  | .Init_TwinBLed => 23
  | .Init_ButtonPollTimer => 9
  | .Init_AzureTimer => 10
  | .Init_AccelTimer => 16
  | .Init_OpenMaster => 17
  | .Init_SetBusSpeed => 18
  | .Init_SetTimeout => 19
  | .Init_SetDefaultTarget => 20
  | .IsButtonPressed_GetValue => 11
  | .Validate_ConnectionType => 12
  | .Validate_ScopeId => 13
  | .Validate_IotHubHostname => 14
  | .Validate_DeviceId => 15
  | .InterfaceConnectionStatus_Failed => 16
  | .ReadWhoAmI_WriteThenRead => 5
  | .ReadWhoAmI_WriteThenReadCompare => 6
  | .ReadWhoAmI_Write => 7
  | .ReadWhoAmI_Read => 8
  | .ReadWhoAmI_WriteReadCompare => 9
  | .ReadWhoAmI_PosixWrite => 10
  | .ReadWhoAmI_PosixRead => 11
  | .ReadWhoAmI_PosixCompare => 12

/-- The exit codes the program actually assigns to `exitCode` or returns from
a live (non-commented) statement of `main.c`: the initial value and the
termination handler, `main`, both timer handlers, `ValidateUserConfiguration`,
`InitPeripheralsAndHandlers`, `IsButtonPressed` and
`IsConnectionReadyToSendTelemetry`. -/
def usedExitCodes : List ExitCode :=
  [.Success, .TermHandler_SigTerm, .Main_EventLoopFail, .ButtonTimer_Consume,
   .AzureTimer_Consume, .Init_EventLoop, .Init_MessageButton, .Init_TwinStatusLed,
   .Init_ButtonPollTimer, .Init_AzureTimer, .IsButtonPressed_GetValue,
   .Validate_ConnectionType, .Validate_ScopeId, .Validate_IotHubHostname,
   .Validate_DeviceId, .InterfaceConnectionStatus_Failed]

/-- C enum `IoTHubClientAuthenticationState` of `main.c` lines 146-153. -/
inductive IoTHubClientAuthenticationState where
  | NotAuthenticated
  | AuthenticationInitiated
  | Authenticated
deriving DecidableEq

/-- The two values of the SDK enum `IOTHUB_CLIENT_CONNECTION_STATUS` that
`ConnectionStatusCallback` can receive. -/
inductive IOTHUB_CLIENT_CONNECTION_STATUS where
  | AUTHENTICATED
  | UNAUTHENTICATED
deriving DecidableEq

/-- Result of one `Networking_GetInterfaceConnectionStatus` call:
`ok c` is return value 0 with `c = (status & ConnectedToInternet) != 0`;
`transientError` is return value -1 with `errno == EAGAIN`;
`fatalError` is return value -1 with any other `errno`. -/
inductive ProbeResult where
  | ok (connectedToInternet : Bool)
  | transientError
  | fatalError
deriving DecidableEq

/-- The mutable module state of `main.c` that the embedded handlers touch:
`iotHubClientAuthenticationState`, `azureIoTPollPeriodSeconds`,
`telemetryCount`, the four LED flags, `sendMessageButtonState`,
`iothubClientHandle != NULL` and `exitCode`. -/
structure AppState where
  auth : IoTHubClientAuthenticationState
  pollPeriod : Int
  telemetryCount : Int
  statusLedOn : Bool
  rLedOn : Bool
  gLedOn : Bool
  bLedOn : Bool
  buttonState : GPIO_Value_Type
  handle : Bool
  exitCode : ExitCode
deriving DecidableEq

/-- `main.c` line 226: `AzureIoTDefaultPollPeriodSeconds = 2`. -/
def AzureIoTDefaultPollPeriodSeconds : Int := 2

/-- `main.c` line 227: `AzureIoTPollPeriodsPerTelemetry = 10`. -/
def AzureIoTPollPeriodsPerTelemetry : Int := 10

/-- `main.c` line 228: `AzureIoTMinReconnectPeriodSeconds = 60`. -/
def AzureIoTMinReconnectPeriodSeconds : Int := 60

/-- `main.c` line 229: `AzureIoTMaxReconnectPeriodSeconds = 10 * 60`. -/
def AzureIoTMaxReconnectPeriodSeconds : Int := 10 * 60

/-- The failure branch of `SetUpAzureIoTHubClient` (`main.c` lines 680-687):
the next value of `azureIoTPollPeriodSeconds` after a failed dispatch. -/
def nextFailurePollPeriod (azureIoTPollPeriodSeconds : Int) : Int :=
  if azureIoTPollPeriodSeconds == AzureIoTDefaultPollPeriodSeconds then
    AzureIoTMinReconnectPeriodSeconds
  else
    let doubled := azureIoTPollPeriodSeconds * 2
    if doubled > AzureIoTMaxReconnectPeriodSeconds then
      AzureIoTMaxReconnectPeriodSeconds
    else
      doubled

/-- `SetUpAzureIoTHubClient` (`main.c` lines 662-711).  The old handle is
destroyed and the DAA/DPS dispatch attempted: afterwards a non-NULL handle
exists iff `dispatchHandle`, and the dispatch reported `dispatchOk`.  On
failure only the poll period changes (backoff); on success the poll period is
reset to the default and the state is set to `AuthenticationInitiated` (the
three SDK callback registrations are external calls on the handle). -/
def SetUpAzureIoTHubClient (s : AppState) (dispatchOk dispatchHandle : Bool) : AppState :=
  let s1 := { s with handle := dispatchHandle }
  if dispatchOk = false then
    { s1 with pollPeriod := nextFailurePollPeriod s1.pollPeriod }
  else
    { s1 with pollPeriod := AzureIoTDefaultPollPeriodSeconds,
              auth := .AuthenticationInitiated }

/-- The telemetry-cadence step of `AzureTimerEventHandler` (`main.c` lines
335-347): when authenticated, increment `telemetryCount`; when it reaches
`AzureIoTPollPeriodsPerTelemetry`, reset it to 0 and trigger one telemetry
emission cycle (the returned flag; the sensor read and sends inside
`SendTempTelemetry` are external I/O). -/
def telemetryCadenceStep (s : AppState) : AppState × Bool :=
  if s.auth = .Authenticated then
    if s.telemetryCount + 1 = AzureIoTPollPeriodsPerTelemetry then
      ({ s with telemetryCount := 0 }, true)
    else
      ({ s with telemetryCount := s.telemetryCount + 1 }, false)
  else
    (s, false)

/-- Observable outcome of one Azure timer tick: the new state, whether
`SetUpAzureIoTHubClient` was invoked, whether a telemetry-emission cycle was
triggered, and whether `IoTHubDeviceClient_LL_DoWork` was pumped. -/
structure AzureTickOutcome where
  state : AppState
  setupAttempted : Bool
  telemetryCycle : Bool
  doWorkRan : Bool
deriving DecidableEq

/-- `AzureTimerEventHandler` (`main.c` lines 312-352).  `consumeOk` is the
result of `ConsumeEventLoopTimerEvent`; `probe` the connectivity probe;
`dispatchOk`/`dispatchHandle` parametrise a possible setup dispatch.  On a
fatal probe error the handler sets the fatal exit code and returns; on a
transient error (`EAGAIN`) it falls through past the setup guard; the
`DoWork` pump runs iff the handle is non-NULL at the end. -/
def AzureTimerEventHandler (s : AppState) (consumeOk : Bool) (probe : ProbeResult)
    (dispatchOk dispatchHandle : Bool) : AzureTickOutcome :=
  if consumeOk = false then
    { state := { s with exitCode := .AzureTimer_Consume },
      setupAttempted := false, telemetryCycle := false, doWorkRan := false }
  else
    match probe with
    | .fatalError =>
      { state := { s with exitCode := .InterfaceConnectionStatus_Failed },
        setupAttempted := false, telemetryCycle := false, doWorkRan := false }
    | .transientError =>
      let sc := telemetryCadenceStep s
      { state := sc.1, setupAttempted := false, telemetryCycle := sc.2,
        doWorkRan := sc.1.handle }
    | .ok connectedToInternet =>
      let stepped :=
        if connectedToInternet ∧ s.auth = .NotAuthenticated then
          (SetUpAzureIoTHubClient s dispatchOk dispatchHandle, true)
        else
          (s, false)
      let sc := telemetryCadenceStep stepped.1
      { state := sc.1, setupAttempted := stepped.2, telemetryCycle := sc.2,
        doWorkRan := sc.1.handle }

/-- `failSeq n` is `azureIoTPollPeriodSeconds` after `n` consecutive failed
dispatches starting from the default poll period. -/
def failSeq : Nat → Int
  | 0 => AzureIoTDefaultPollPeriodSeconds
  | n + 1 => nextFailurePollPeriod (failSeq n)

/-- `TwinReportState` (`main.c` lines 1015-1029): enqueue one reported-state
document when the handle is non-NULL, otherwise log and enqueue nothing (the
SDK `SendReportedState` submission itself is an external call). -/
def TwinReportState (s : AppState) (jsonState : String) : List String :=
  if s.handle then [jsonState] else []

/-- The static device-twin report of `main.c` line 654. -/
def staticDeviceTwinReport : String :=
  "\x7b\"manufacturer\":\"Microsoft\",\"model\":\"Azure Sphere Sample Device\"\x7d"

/-- `ConnectionStatusCallback` (`main.c` lines 640-655): any status other than
`AUTHENTICATED` resets the state to `NotAuthenticated`; `AUTHENTICATED` sets
it to `Authenticated` and enqueues the static device-twin report. -/
def ConnectionStatusCallback (s : AppState)
    (result : IOTHUB_CLIENT_CONNECTION_STATUS) : AppState × List String :=
  if result ≠ .AUTHENTICATED then
    ({ s with auth := .NotAuthenticated }, [])
  else
    let s1 := { s with auth := .Authenticated }
    (s1, TwinReportState s1 staticDeviceTwinReport)

/-- Parsed JSON values, the level at which parson hands data to
`DeviceTwinCallback`.  Numbers carry an `Int` stand-in (parson uses `double`;
no embedded code inspects the numeric value, only whether a field is a
Boolean). -/
inductive JSONValue where
  | JNull
  | JBool (b : Bool)
  | JNumber (q : Int)
  | JString (s : String)
  | JArray (items : List JSONValue)
  | JObject (fields : List (String × JSONValue))

/-- parson `json_value_get_object`: the fields of an object value, and NULL
(no fields) for every other value. -/
def json_value_get_object : JSONValue → List (String × JSONValue)
  | .JObject fields => fields
  | _ => []

/-- parson `json_object_dotget_value` for a name without dots: the first
field with that name, if any. -/
def json_object_dotget_value (o : List (String × JSONValue)) (name : String) :
    Option JSONValue :=
  (o.find? (fun p => p.1 == name)).map (fun p => p.2)

/-- parson `json_object_dotget_object`: the named field when it is an object,
otherwise NULL. -/
def json_object_dotget_object (o : List (String × JSONValue)) (name : String) :
    Option (List (String × JSONValue)) :=
  match json_object_dotget_value o name with
  | some (.JObject fields) => some fields
  | _ => none

/-- parson `json_object_dotget_boolean`: 1 or 0 when the named field is a
Boolean, and -1 when it is absent or not a Boolean. -/
def json_object_dotget_boolean (o : List (String × JSONValue)) (name : String) : Int :=
  match json_object_dotget_value o name with
  | some (.JBool b) => if b then 1 else 0
  | _ => -1

/-- `main.c` lines 819-823: the effective desired object is the `"desired"`
sub-object when present, otherwise the root object itself. -/
def effectiveDesired (rootProperties : JSONValue) : List (String × JSONValue) :=
  let rootObject := json_value_get_object rootProperties
  match json_object_dotget_object rootObject "desired" with
  | some desiredProperties => desiredProperties
  | none => rootObject

/-- The LED output pins driven by `DeviceTwinCallback`. -/
inductive LedPin where
  | statusLed
  | rLed
  | gLed
  | bLed
deriving DecidableEq

/-- One `if (value != -1) flag = value == 1;` block of `DeviceTwinCallback`:
the new flag value given the old one and a parson Boolean lookup result. -/
def applyLedField (old : Bool) (v : Int) : Bool :=
  if v != -1 then v == 1 else old

/-- The matching `GPIO_SetValue(fd, on ? GPIO_Value_Low : GPIO_Value_High)`
call: performed only when the field was present as a Boolean, driving the pin
active-low. -/
def ledWrite (pin : LedPin) (v : Int) (newOn : Bool) :
    List (LedPin × GPIO_Value_Type) :=
  if v != -1 then [(pin, if newOn then .Low else .High)] else []

/-- Observable outcome of one `DeviceTwinCallback` invocation. -/
structure TwinEffects where
  state : AppState
  gpioWrites : List (LedPin × GPIO_Value_Type)
  reports : List String
deriving DecidableEq

/-- `DeviceTwinCallback` (`main.c` lines 797-878) from the parsed payload on:
`none` is an unparsable payload (`json_parse_string` returned NULL), which
drops the whole update.  Otherwise each of the four Boolean fields present in
the effective desired object updates its flag and drives its pin, and the
four current flag values are reported back (the StatusLED report is emitted
between the StatusLED block and the RGB blocks, exactly as in the source).
The `abort()` on malloc failure is an out-of-memory path outside the model. -/
def DeviceTwinCallback (s : AppState) (parsed : Option JSONValue) : TwinEffects :=
  match parsed with
  | none => { state := s, gpioWrites := [], reports := [] }
  | some rootProperties =>
    let desiredProperties := effectiveDesired rootProperties
    let statusLedValue := json_object_dotget_boolean desiredProperties "StatusLED"
    let statusLedOn1 := applyLedField s.statusLedOn statusLedValue
    let w1 := ledWrite .statusLed statusLedValue statusLedOn1
    let r1 := if statusLedOn1 then "\x7b\"StatusLED\":true\x7d"
              else "\x7b\"StatusLED\":false\x7d"
    let RLedValue := json_object_dotget_boolean desiredProperties "RLED"
    let GLedValue := json_object_dotget_boolean desiredProperties "GLED"
    let BLedValue := json_object_dotget_boolean desiredProperties "BLED"
    let RLedOn1 := applyLedField s.rLedOn RLedValue
    let GLedOn1 := applyLedField s.gLedOn GLedValue
    let BLedOn1 := applyLedField s.bLedOn BLedValue
    let w2 := ledWrite .rLed RLedValue RLedOn1
    let w3 := ledWrite .gLed GLedValue GLedOn1
    let w4 := ledWrite .bLed BLedValue BLedOn1
    let r2 := if RLedOn1 then "\x7b\"RLED\":true\x7d" else "\x7b\"RLED\":false\x7d"
    let r3 := if GLedOn1 then "\x7b\"GLED\":true\x7d" else "\x7b\"GLED\":false\x7d"
    let r4 := if BLedOn1 then "\x7b\"BLED\":true\x7d" else "\x7b\"BLED\":false\x7d"
    { state := { s with statusLedOn := statusLedOn1, rLedOn := RLedOn1,
                        gLedOn := GLedOn1, bLedOn := BLedOn1 },
      gpioWrites := w1 ++ w2 ++ w3 ++ w4,
      reports := TwinReportState s r1 ++ TwinReportState s r2 ++
                 TwinReportState s r3 ++ TwinReportState s r4 }

/-- `DeviceMethodCallback` (`main.c` lines 767-792): the returned status code
and the response body that is copied to the heap for the SDK. -/
def DeviceMethodCallback (methodName : String) : Int × String :=
  if methodName == "TriggerAlarm" then
    (200, "\"Alarm Triggered\"")
  else
    (-1, "\x7b\x7d")

/-- `IsConnectionReadyToSendTelemetry` (`main.c` lines 942-966): a fatal probe
error sets the fatal exit code; a transient error or a missing
connected-to-internet bit just reports not-ready. -/
def IsConnectionReadyToSendTelemetry (s : AppState) (probe : ProbeResult) :
    AppState × Bool :=
  match probe with
  | .fatalError => ({ s with exitCode := .InterfaceConnectionStatus_Failed }, false)
  | .transientError => (s, false)
  | .ok connectedToInternet => (s, connectedToInternet)

/-- `SendTelemetry` (`main.c` lines 971-1001): drop the message unless the
client is authenticated and the connectivity probe confirms internet access;
otherwise hand it to the SDK (message-handle creation and the async send are
external calls, modelled as the emitted message). -/
def SendTelemetry (s : AppState) (probe : ProbeResult) (jsonMessage : String) :
    AppState × List String :=
  if s.auth ≠ .Authenticated then
    (s, [])
  else
    let ready := IsConnectionReadyToSendTelemetry s probe
    if ready.2 = false then
      (ready.1, [])
    else
      (ready.1, [jsonMessage])

/-- `IsButtonPressed` (`main.c` lines 1068-1083) on a successful GPIO read:
pressed iff the sample is low and differs from the last recorded state, and
the recorded state becomes the sample. -/
def IsButtonPressed (newState oldState : GPIO_Value_Type) :
    Bool × GPIO_Value_Type :=
  ((newState != oldState) && (newState == GPIO_Value_Type.Low), newState)

/-- The telemetry message of `main.c` line 305. -/
def buttonPressMessage : String := "\x7b\"ButtonPress\" : \"True\"\x7d"

/-- `ButtonPollTimerEventHandler` (`main.c` lines 297-307).  `consumeOk` is
the `ConsumeEventLoopTimerEvent` result; `read` the GPIO sample (`none` is a
failed `GPIO_GetValue`, which sets the exit code and leaves the recorded
state untouched).  Returns the new state, whether a telemetry emission was
attempted, and the messages actually handed to the SDK. -/
def ButtonPollTimerEventHandler (s : AppState) (consumeOk : Bool)
    (read : Option GPIO_Value_Type) (probe : ProbeResult) :
    AppState × Bool × List String :=
  if consumeOk = false then
    ({ s with exitCode := .ButtonTimer_Consume }, false, [])
  else
    match read with
    | none => ({ s with exitCode := .IsButtonPressed_GetValue }, false, [])
    | some newState =>
      let pr := IsButtonPressed newState s.buttonState
      let s1 := { s with buttonState := pr.2 }
      if pr.1 then
        let sent := SendTelemetry s1 probe buttonPressMessage
        (sent.1, true, sent.2)
      else
        (s1, false, [])

/-- Number of released-to-pressed edges in a sample sequence, starting from a
given recorded state: a sample counts iff `IsButtonPressed` reports it. -/
def buttonEdgeCount : GPIO_Value_Type → List GPIO_Value_Type → Nat
  | _, [] => 0
  | prev, n :: rest =>
    (if (IsButtonPressed n prev).1 then 1 else 0) + buttonEdgeCount n rest

/-- Run one button poll tick per sample (each with a successful timer consume
and GPIO read, probing `probe`), accumulating the telemetry attempts and the
messages actually handed to the SDK. -/
def runButtonTicks (probe : ProbeResult) :
    AppState → List GPIO_Value_Type → AppState × Nat × List String
  | s, [] => (s, 0, [])
  | s, n :: rest =>
    let t := ButtonPollTimerEventHandler s true (some n) probe
    let r := runButtonTicks probe t.1 rest
    (r.1, (if t.2.1 then 1 else 0) + r.2.1, t.2.2 ++ r.2.2)

/-- A concrete healthy state: authenticated, default poll period, cadence
counter zero, all LEDs off, button released, live handle. -/
def baseState : AppState :=
  { auth := .Authenticated, pollPeriod := AzureIoTDefaultPollPeriodSeconds,
    telemetryCount := 0, statusLedOn := false, rLedOn := false, gLedOn := false,
    bLedOn := false, buttonState := .High, handle := true, exitCode := .Success }

/-- The desired-state scenario payload: the parsed form of the document
with a `"desired"` object holding `"StatusLED"` set to `true`. -/
def statusTrueDesiredPayload : JSONValue :=
  .JObject [("desired", .JObject [("StatusLED", .JBool true)])]

/-- `baseState` with the authentication state reset to `NotAuthenticated`. -/
def notAuthState : AppState :=
  { baseState with auth := .NotAuthenticated }

/-- The device-twin field name each LED pin is driven by. -/
def ledFieldName : LedPin → String
  | .statusLed => "StatusLED"
  | .rLed => "RLED"
  | .gLed => "GLED"
  | .bLed => "BLED"

/-- Every reachable value of the consecutive-failure poll-period sequence. -/
theorem failSeq_cases (n : Nat) :
    failSeq n = 2 ∨ failSeq n = 60 ∨ failSeq n = 120 ∨ failSeq n = 240 ∨
    failSeq n = 480 ∨ failSeq n = 600 := by
  induction n with
  | zero => left; rfl
  | succ n ih =>
    rcases ih with h | h | h | h | h | h <;> simp only [failSeq, h] <;> decide

/-- C1: the retry/backoff computation of the poll period.  A successful
dispatch resets the poll period to the default, whatever it was; a failed
dispatch applies `nextFailurePollPeriod`, which jumps from the default
straight to the minimum reconnect period and otherwise doubles up to the
maximum; with the configured constants a run of consecutive failures from
the default period yields 2, 60, 120, 240, 480, 600, 600, is monotonically
non-decreasing and never exceeds 600. -/
theorem c1_retry_backoff_policy :
    (∀ (s : AppState) (dH : Bool),
        (SetUpAzureIoTHubClient s true dH).pollPeriod = AzureIoTDefaultPollPeriodSeconds) ∧
    (∀ (s : AppState) (dH : Bool),
        (SetUpAzureIoTHubClient s false dH).pollPeriod = nextFailurePollPeriod s.pollPeriod) ∧
    nextFailurePollPeriod AzureIoTDefaultPollPeriodSeconds = AzureIoTMinReconnectPeriodSeconds ∧
    (∀ p : Int, p ≠ AzureIoTDefaultPollPeriodSeconds →
        nextFailurePollPeriod p = min (p * 2) AzureIoTMaxReconnectPeriodSeconds) ∧
    (failSeq 0 = 2 ∧ failSeq 1 = 60 ∧ failSeq 2 = 120 ∧ failSeq 3 = 240 ∧
     failSeq 4 = 480 ∧ failSeq 5 = 600 ∧ failSeq 6 = 600) ∧
    (∀ n : Nat, failSeq n ≤ failSeq (n + 1) ∧ failSeq n ≤ AzureIoTMaxReconnectPeriodSeconds) := by
  refine ⟨fun s dH => rfl, fun s dH => rfl, by decide, ?_, by decide, ?_⟩
  · intro p hp
    unfold nextFailurePollPeriod
    rw [if_neg (by simpa using hp)]
    show (if p * 2 > AzureIoTMaxReconnectPeriodSeconds then AzureIoTMaxReconnectPeriodSeconds
          else p * 2) = _
    rcases le_or_lt (p * 2) AzureIoTMaxReconnectPeriodSeconds with h | h
    · rw [if_neg (not_lt.mpr h), min_eq_left h]
    · rw [if_pos h, min_eq_right h.le]
  · intro n
    rcases failSeq_cases n with h | h | h | h | h | h <;>
      refine ⟨?_, ?_⟩ <;> simp only [failSeq, h] <;> decide

/-- Witness for `c1_retry_backoff_policy` at concrete inputs. -/
theorem c1_retry_backoff_policy_witness :
    nextFailurePollPeriod 60 = min (60 * 2) AzureIoTMaxReconnectPeriodSeconds ∧
    (SetUpAzureIoTHubClient baseState true true).pollPeriod = AzureIoTDefaultPollPeriodSeconds :=
  ⟨c1_retry_backoff_policy.2.2.2.1 60 (by decide), c1_retry_backoff_policy.1 baseState true⟩

/-- C5 counterexample: two distinct failure categories of the `ExitCode` enum
share the same integer value (`Init_AccelTimer` and
`InterfaceConnectionStatus_Failed` are both 16; `Init_EventLoop` and
`ReadWhoAmI_WriteThenRead` are both 5), so the mapping is not injective over
the enum. -/
theorem c5_exit_code_collision :
    ExitCode.Init_AccelTimer ≠ ExitCode.InterfaceConnectionStatus_Failed ∧
    exitCodeValue ExitCode.Init_AccelTimer =
      exitCodeValue ExitCode.InterfaceConnectionStatus_Failed ∧
    ExitCode.Init_EventLoop ≠ ExitCode.ReadWhoAmI_WriteThenRead ∧
    exitCodeValue ExitCode.Init_EventLoop = exitCodeValue ExitCode.ReadWhoAmI_WriteThenRead := by
  decide

/-- C5 amended: restricted to the exit codes the program actually assigns in
live code, the values are pairwise distinct; over the whole enum, 0 is the
value of `Success` and of no other enumerator. -/
theorem c5_used_exit_codes_distinct :
    usedExitCodes.Pairwise (fun a b => exitCodeValue a ≠ exitCodeValue b) ∧
    (∀ c : ExitCode, exitCodeValue c = 0 ↔ c = ExitCode.Success) := by
  constructor
  · decide
  · intro c; cases c <;> decide

/-- C6: the direct-method callback returns status 200 and the quoted JSON
string body for `"TriggerAlarm"`, and a negative status with the
empty-object body for every other method name. -/
theorem c6_device_method_dispatch (methodName : String) :
    (methodName = "TriggerAlarm" →
       DeviceMethodCallback methodName = (200, "\"Alarm Triggered\"")) ∧
    (methodName ≠ "TriggerAlarm" →
       (DeviceMethodCallback methodName).1 < 0 ∧
       (DeviceMethodCallback methodName).2 = "\x7b\x7d") := by
  constructor
  · intro h
    simp [DeviceMethodCallback, h]
  · intro h
    simp [DeviceMethodCallback, h]

/-- Witness for `c6_device_method_dispatch` at `"TriggerAlarm"` and
`"Unknown"`. -/
theorem c6_device_method_dispatch_witness :
    DeviceMethodCallback "TriggerAlarm" = (200, "\"Alarm Triggered\"") ∧
    (DeviceMethodCallback "Unknown").1 < 0 ∧
    (DeviceMethodCallback "Unknown").2 = "\x7b\x7d" :=
  ⟨(c6_device_method_dispatch "TriggerAlarm").1 rfl,
   (c6_device_method_dispatch "Unknown").2 (by decide)⟩

/-- C8: an unparsable desired-state payload is dropped atomically: the state
(all four actuator flags and the exit code included) is unchanged, no GPIO
output is driven and no report is enqueued. -/
theorem c8_unparsable_payload_dropped (s : AppState) :
    DeviceTwinCallback s none = { state := s, gpioWrites := [], reports := [] } := rfl

/-- The telemetry-cadence step touches only `telemetryCount`. -/
theorem telemetryCadenceStep_preserves (s : AppState) :
    (telemetryCadenceStep s).1.auth = s.auth ∧
    (telemetryCadenceStep s).1.pollPeriod = s.pollPeriod ∧
    (telemetryCadenceStep s).1.handle = s.handle ∧
    (telemetryCadenceStep s).1.exitCode = s.exitCode := by
  unfold telemetryCadenceStep
  split
  · split <;> exact ⟨rfl, rfl, rfl, rfl⟩
  · exact ⟨rfl, rfl, rfl, rfl⟩

/-- How the telemetry-cadence step moves the counter. -/
theorem telemetryCadenceStep_count (s : AppState) :
    (telemetryCadenceStep s).1.telemetryCount =
      (if s.auth = .Authenticated then
         (if s.telemetryCount + 1 = AzureIoTPollPeriodsPerTelemetry then 0
          else s.telemetryCount + 1)
       else s.telemetryCount) := by
  unfold telemetryCadenceStep
  by_cases h : s.auth = .Authenticated
  · rw [if_pos h, if_pos h]
    by_cases h2 : s.telemetryCount + 1 = AzureIoTPollPeriodsPerTelemetry
    · rw [if_pos h2, if_pos h2]
    · rw [if_neg h2, if_neg h2]
  · rw [if_neg h, if_neg h]

/-- A successful dispatch sets `AuthenticationInitiated`. -/
theorem setUp_success_auth (s : AppState) (dH : Bool) :
    (SetUpAzureIoTHubClient s true dH).auth = .AuthenticationInitiated := rfl

/-- A successful dispatch resets the poll period to the default. -/
theorem setUp_success_period (s : AppState) (dH : Bool) :
    (SetUpAzureIoTHubClient s true dH).pollPeriod = AzureIoTDefaultPollPeriodSeconds := rfl

/-- A failed dispatch leaves the authentication state untouched. -/
theorem setUp_fail_auth (s : AppState) (dH : Bool) :
    (SetUpAzureIoTHubClient s false dH).auth = s.auth := rfl

/-- A failed dispatch applies the backoff policy to the poll period. -/
theorem setUp_fail_period (s : AppState) (dH : Bool) :
    (SetUpAzureIoTHubClient s false dH).pollPeriod = nextFailurePollPeriod s.pollPeriod := rfl

/-- Unfolded form of an Azure tick whose probe succeeded with internet access
while the client was `NotAuthenticated`. -/
theorem azureTick_ok_true (s : AppState) (dOk dH : Bool)
    (ha : s.auth = .NotAuthenticated) :
    AzureTimerEventHandler s true (.ok true) dOk dH =
      { state := (telemetryCadenceStep (SetUpAzureIoTHubClient s dOk dH)).1,
        setupAttempted := true,
        telemetryCycle := (telemetryCadenceStep (SetUpAzureIoTHubClient s dOk dH)).2,
        doWorkRan := (telemetryCadenceStep (SetUpAzureIoTHubClient s dOk dH)).1.handle } := by
  simp only [AzureTimerEventHandler]
  rw [if_neg (by decide), if_pos (by exact ⟨by trivial, ha⟩)]

/-- Unfolded form of an Azure tick whose probe succeeded but the setup guard
did not fire. -/
theorem azureTick_ok_noSetup (s : AppState) (conn dOk dH : Bool)
    (h : ¬(conn = true ∧ s.auth = .NotAuthenticated)) :
    AzureTimerEventHandler s true (.ok conn) dOk dH =
      { state := (telemetryCadenceStep s).1, setupAttempted := false,
        telemetryCycle := (telemetryCadenceStep s).2,
        doWorkRan := (telemetryCadenceStep s).1.handle } := by
  simp only [AzureTimerEventHandler]
  rw [if_neg (by decide), if_neg (by exact h)]

/-- Unfolded form of an Azure tick whose probe reported a transient error. -/
theorem azureTick_transient (s : AppState) (dOk dH : Bool) :
    AzureTimerEventHandler s true .transientError dOk dH =
      { state := (telemetryCadenceStep s).1, setupAttempted := false,
        telemetryCycle := (telemetryCadenceStep s).2,
        doWorkRan := (telemetryCadenceStep s).1.handle } := by
  simp only [AzureTimerEventHandler]
  rw [if_neg (by decide)]

/-- Unfolded form of an Azure tick whose probe reported a fatal error. -/
theorem azureTick_fatal (s : AppState) (dOk dH : Bool) :
    AzureTimerEventHandler s true .fatalError dOk dH =
      { state := { s with exitCode := .InterfaceConnectionStatus_Failed },
        setupAttempted := false, telemetryCycle := false, doWorkRan := false } := by
  simp only [AzureTimerEventHandler]
  rw [if_neg (by decide)]

/-- C2: setup is dispatched by the Azure tick exactly when the probe reports
connected-to-internet and the state is `NotAuthenticated`; in every other
state the tick is a no-op with respect to setup (authentication state and
poll period untouched); a successful dispatch sets `AuthenticationInitiated`
and resets the poll period, a failed dispatch leaves the state
`NotAuthenticated` and applies the backoff policy. -/
theorem c2_setup_guard (s : AppState) (probe : ProbeResult) (dOk dH : Bool) :
    ((AzureTimerEventHandler s true probe dOk dH).setupAttempted = true ↔
       probe = ProbeResult.ok true ∧ s.auth = .NotAuthenticated) ∧
    (s.auth ≠ .NotAuthenticated →
       (AzureTimerEventHandler s true probe dOk dH).state.auth = s.auth ∧
       (AzureTimerEventHandler s true probe dOk dH).state.pollPeriod = s.pollPeriod) ∧
    (probe = ProbeResult.ok true → s.auth = .NotAuthenticated → dOk = true →
       (AzureTimerEventHandler s true probe dOk dH).state.auth = .AuthenticationInitiated ∧
       (AzureTimerEventHandler s true probe dOk dH).state.pollPeriod =
         AzureIoTDefaultPollPeriodSeconds) ∧
    (probe = ProbeResult.ok true → s.auth = .NotAuthenticated → dOk = false →
       (AzureTimerEventHandler s true probe dOk dH).state.auth = .NotAuthenticated ∧
       (AzureTimerEventHandler s true probe dOk dH).state.pollPeriod =
         nextFailurePollPeriod s.pollPeriod) := by
  refine ⟨?_, ?_, ?_, ?_⟩
  · cases probe with
    | fatalError => rw [azureTick_fatal]; simp
    | transientError => rw [azureTick_transient]; simp
    | ok conn =>
      by_cases h : conn = true ∧ s.auth = .NotAuthenticated
      · obtain ⟨rfl, ha⟩ := h
        rw [azureTick_ok_true s dOk dH ha]
        simp [ha]
      · rw [azureTick_ok_noSetup s conn dOk dH h]
        simpa using h
  · intro hna
    have hp := telemetryCadenceStep_preserves s
    cases probe with
    | fatalError => rw [azureTick_fatal]; exact ⟨rfl, rfl⟩
    | transientError => rw [azureTick_transient]; exact ⟨hp.1, hp.2.1⟩
    | ok conn =>
      rw [azureTick_ok_noSetup s conn dOk dH (fun hc => hna hc.2)]
      exact ⟨hp.1, hp.2.1⟩
  · rintro rfl ha rfl
    have hp := telemetryCadenceStep_preserves (SetUpAzureIoTHubClient s true dH)
    rw [azureTick_ok_true s true dH ha]
    exact ⟨hp.1.trans (setUp_success_auth s dH), hp.2.1.trans (setUp_success_period s dH)⟩
  · rintro rfl ha rfl
    have hp := telemetryCadenceStep_preserves (SetUpAzureIoTHubClient s false dH)
    rw [azureTick_ok_true s false dH ha]
    exact ⟨(hp.1.trans (setUp_fail_auth s dH)).trans ha,
           hp.2.1.trans (setUp_fail_period s dH)⟩

/-- Witness for `c2_setup_guard`: a successful and a failed dispatch from a
`NotAuthenticated` state, and the no-op facts from an `Authenticated` one. -/
theorem c2_setup_guard_witness :
    (AzureTimerEventHandler notAuthState true (ProbeResult.ok true) true true).state.auth =
      IoTHubClientAuthenticationState.AuthenticationInitiated ∧
    (AzureTimerEventHandler notAuthState true (ProbeResult.ok true) true true).state.pollPeriod =
      AzureIoTDefaultPollPeriodSeconds ∧
    (AzureTimerEventHandler notAuthState true (ProbeResult.ok true) false true).state.auth =
      IoTHubClientAuthenticationState.NotAuthenticated ∧
    (AzureTimerEventHandler notAuthState true (ProbeResult.ok true) false true).state.pollPeriod =
      nextFailurePollPeriod notAuthState.pollPeriod ∧
    (AzureTimerEventHandler baseState true (ProbeResult.ok true) true true).state.auth =
      baseState.auth ∧
    (AzureTimerEventHandler baseState true (ProbeResult.ok true) true true).setupAttempted =
      false := by
  have hs := (c2_setup_guard notAuthState (ProbeResult.ok true) true true).2.2.1 rfl rfl rfl
  have hf := (c2_setup_guard notAuthState (ProbeResult.ok true) false true).2.2.2 rfl rfl rfl
  have hn := (c2_setup_guard baseState (ProbeResult.ok true) true true).2.1 (by decide)
  have hiff := (c2_setup_guard baseState (ProbeResult.ok true) true true).1
  refine ⟨hs.1, hs.2, hf.1, hf.2, hn.1, ?_⟩
  cases hb : (AzureTimerEventHandler baseState true (ProbeResult.ok true) true true).setupAttempted
  · rfl
  · exact absurd (hiff.mp hb).2 (by decide)

/-- C3: any connection-status callback with a non-authenticated status resets
the state to `NotAuthenticated` (whatever the prior state) and enqueues
nothing; the authenticated status sets `Authenticated` and enqueues exactly
one static device-twin report. -/
theorem c3_connection_status_callback (s : AppState)
    (result : IOTHUB_CLIENT_CONNECTION_STATUS) :
    (result = .AUTHENTICATED → s.handle = true →
       (ConnectionStatusCallback s result).1.auth = .Authenticated ∧
       (ConnectionStatusCallback s result).2 = [staticDeviceTwinReport]) ∧
    (result ≠ .AUTHENTICATED →
       (ConnectionStatusCallback s result).1.auth = .NotAuthenticated ∧
       (ConnectionStatusCallback s result).2 = []) := by
  constructor
  · rintro rfl hh
    simp [ConnectionStatusCallback, TwinReportState, hh]
  · intro hr
    simp [ConnectionStatusCallback, hr]

/-- Witness for `c3_connection_status_callback`: an authenticated status on a
live handle, and a non-authenticated status arriving while a setup is
pending. -/
theorem c3_connection_status_callback_witness :
    (ConnectionStatusCallback baseState .AUTHENTICATED).1.auth =
      IoTHubClientAuthenticationState.Authenticated ∧
    (ConnectionStatusCallback baseState .AUTHENTICATED).2 = [staticDeviceTwinReport] ∧
    (ConnectionStatusCallback { baseState with auth := .AuthenticationInitiated }
        .UNAUTHENTICATED).1.auth = IoTHubClientAuthenticationState.NotAuthenticated ∧
    (ConnectionStatusCallback { baseState with auth := .AuthenticationInitiated }
        .UNAUTHENTICATED).2 = [] := by
  have h1 := (c3_connection_status_callback baseState .AUTHENTICATED).1 rfl rfl
  have h2 := (c3_connection_status_callback
      { baseState with auth := .AuthenticationInitiated } .UNAUTHENTICATED).2 (by decide)
  exact ⟨h1.1, h1.2, h2.1, h2.2⟩

/-- C4 counterexample: on a transient probe error the tick does NOT skip the
telemetry-cadence step — from an authenticated state with counter 0 the
counter advances to 1, so the tick does more than the transport work-pump. -/
theorem c4_transient_counterexample :
    baseState.telemetryCount = 0 ∧
    (AzureTimerEventHandler baseState true ProbeResult.transientError true true).state.telemetryCount
      = 1 := by
  decide

/-- C4 amended: on a transient probe error the tick skips only the setup step
(authentication state, poll period and exit code untouched), still runs the
telemetry-cadence step, and pumps the transport iff the handle is live; on a
fatal probe error it sets the fatal exit code and performs no setup, no
cadence work and no transport pump. -/
theorem c4_probe_error_handling (s : AppState) (dOk dH : Bool) :
    ((AzureTimerEventHandler s true ProbeResult.transientError dOk dH).setupAttempted = false ∧
     (AzureTimerEventHandler s true ProbeResult.transientError dOk dH).state.auth = s.auth ∧
     (AzureTimerEventHandler s true ProbeResult.transientError dOk dH).state.pollPeriod =
       s.pollPeriod ∧
     (AzureTimerEventHandler s true ProbeResult.transientError dOk dH).state.exitCode =
       s.exitCode ∧
     (AzureTimerEventHandler s true ProbeResult.transientError dOk dH).state.telemetryCount =
       (if s.auth = .Authenticated then
          (if s.telemetryCount + 1 = AzureIoTPollPeriodsPerTelemetry then 0
           else s.telemetryCount + 1)
        else s.telemetryCount) ∧
     (AzureTimerEventHandler s true ProbeResult.transientError dOk dH).doWorkRan = s.handle) ∧
    ((AzureTimerEventHandler s true ProbeResult.fatalError dOk dH).state.exitCode =
       ExitCode.InterfaceConnectionStatus_Failed ∧
     (AzureTimerEventHandler s true ProbeResult.fatalError dOk dH).setupAttempted = false ∧
     (AzureTimerEventHandler s true ProbeResult.fatalError dOk dH).telemetryCycle = false ∧
     (AzureTimerEventHandler s true ProbeResult.fatalError dOk dH).doWorkRan = false ∧
     (AzureTimerEventHandler s true ProbeResult.fatalError dOk dH).state.telemetryCount =
       s.telemetryCount) := by
  have hp := telemetryCadenceStep_preserves s
  have hc := telemetryCadenceStep_count s
  have hh : (telemetryCadenceStep s).1.handle = s.handle := hp.2.2.1
  refine ⟨⟨?_, ?_, ?_, ?_, ?_, ?_⟩, ?_, ?_, ?_, ?_, ?_⟩
  · rw [azureTick_transient]
  · rw [azureTick_transient]; exact hp.1
  · rw [azureTick_transient]; exact hp.2.1
  · rw [azureTick_transient]; exact hp.2.2.2
  · rw [azureTick_transient]; exact hc
  · rw [azureTick_transient]; exact hh
  · rw [azureTick_fatal]
  · rw [azureTick_fatal]
  · rw [azureTick_fatal]
  · rw [azureTick_fatal]
  · rw [azureTick_fatal]

/-- A field present as Boolean `true` sets the flag. -/
theorem applyLedField_one (old : Bool) : applyLedField old 1 = true := rfl

/-- A field present as Boolean `false` clears the flag. -/
theorem applyLedField_zero (old : Bool) : applyLedField old 0 = false := rfl

/-- An absent or non-Boolean field leaves the flag unchanged. -/
theorem applyLedField_neg (old : Bool) : applyLedField old (-1) = old := rfl

/-- A present field drives its pin, active-low. -/
theorem ledWrite_one (pin : LedPin) (b : Bool) :
    ledWrite pin 1 b = [(pin, if b then .Low else .High)] := rfl

/-- A present field drives its pin, active-low. -/
theorem ledWrite_zero (pin : LedPin) (b : Bool) :
    ledWrite pin 0 b = [(pin, if b then .Low else .High)] := rfl

/-- An absent or non-Boolean field drives nothing. -/
theorem ledWrite_neg (pin : LedPin) (b : Bool) : ledWrite pin (-1) b = [] := rfl

/-- A GPIO write can only come from a present field of the matching pin. -/
theorem mem_ledWrite_ne {p q : LedPin} {w : GPIO_Value_Type} {v : Int} {b : Bool}
    (h : (p, w) ∈ ledWrite q v b) : v ≠ -1 ∧ p = q := by
  unfold ledWrite at h
  by_cases hv : (v != -1) = true
  · rw [if_pos hv] at h
    simp only [List.mem_singleton, Prod.mk.injEq] at h
    exact ⟨by simpa using hv, h.1⟩
  · rw [if_neg hv] at h
    simp at h

/-- Every GPIO write of the twin callback comes from a field that was present
as a Boolean in the effective desired object. -/
theorem twin_write_field_present (s : AppState) (j : JSONValue) (p : LedPin)
    (w : GPIO_Value_Type)
    (h : (p, w) ∈ (DeviceTwinCallback s (some j)).gpioWrites) :
    json_object_dotget_boolean (effectiveDesired j) (ledFieldName p) ≠ -1 := by
  simp only [DeviceTwinCallback, List.mem_append] at h
  rcases h with ((h | h) | h) | h <;>
    obtain ⟨hne, rfl⟩ := mem_ledWrite_ne h <;>
    simpa [ledFieldName] using hne

/-- C7: for every desired-state update that parses, each of the four Boolean
actuator fields present in the effective desired object sets its in-memory
flag and drives its pin active-low (`true` drives the pin electrically low),
and the reports enqueued are exactly the four actuator states after the
update — report-all, four outbound reports. -/
theorem c7_desired_state_reconciliation (s : AppState) (j : JSONValue)
    (hh : s.handle = true) :
    (∀ b : Bool,
        json_object_dotget_boolean (effectiveDesired j) "StatusLED" = (if b then 1 else 0) →
        (DeviceTwinCallback s (some j)).state.statusLedOn = b ∧
        (LedPin.statusLed, if b then GPIO_Value_Type.Low else GPIO_Value_Type.High) ∈
          (DeviceTwinCallback s (some j)).gpioWrites) ∧
    (∀ b : Bool,
        json_object_dotget_boolean (effectiveDesired j) "RLED" = (if b then 1 else 0) →
        (DeviceTwinCallback s (some j)).state.rLedOn = b ∧
        (LedPin.rLed, if b then GPIO_Value_Type.Low else GPIO_Value_Type.High) ∈
          (DeviceTwinCallback s (some j)).gpioWrites) ∧
    (∀ b : Bool,
        json_object_dotget_boolean (effectiveDesired j) "GLED" = (if b then 1 else 0) →
        (DeviceTwinCallback s (some j)).state.gLedOn = b ∧
        (LedPin.gLed, if b then GPIO_Value_Type.Low else GPIO_Value_Type.High) ∈
          (DeviceTwinCallback s (some j)).gpioWrites) ∧
    (∀ b : Bool,
        json_object_dotget_boolean (effectiveDesired j) "BLED" = (if b then 1 else 0) →
        (DeviceTwinCallback s (some j)).state.bLedOn = b ∧
        (LedPin.bLed, if b then GPIO_Value_Type.Low else GPIO_Value_Type.High) ∈
          (DeviceTwinCallback s (some j)).gpioWrites) ∧
    (DeviceTwinCallback s (some j)).reports =
      [if (DeviceTwinCallback s (some j)).state.statusLedOn then "\x7b\"StatusLED\":true\x7d"
       else "\x7b\"StatusLED\":false\x7d",
       if (DeviceTwinCallback s (some j)).state.rLedOn then "\x7b\"RLED\":true\x7d"
       else "\x7b\"RLED\":false\x7d",
       if (DeviceTwinCallback s (some j)).state.gLedOn then "\x7b\"GLED\":true\x7d"
       else "\x7b\"GLED\":false\x7d",
       if (DeviceTwinCallback s (some j)).state.bLedOn then "\x7b\"BLED\":true\x7d"
       else "\x7b\"BLED\":false\x7d"] := by
  refine ⟨?_, ?_, ?_, ?_, ?_⟩
  · intro b hb
    cases b <;>
      simp [DeviceTwinCallback, hb, applyLedField_one, applyLedField_zero,
            ledWrite_one, ledWrite_zero, List.mem_append]
  · intro b hb
    cases b <;>
      simp [DeviceTwinCallback, hb, applyLedField_one, applyLedField_zero,
            ledWrite_one, ledWrite_zero, List.mem_append]
  · intro b hb
    cases b <;>
      simp [DeviceTwinCallback, hb, applyLedField_one, applyLedField_zero,
            ledWrite_one, ledWrite_zero, List.mem_append]
  · intro b hb
    cases b <;>
      simp [DeviceTwinCallback, hb, applyLedField_one, applyLedField_zero,
            ledWrite_one, ledWrite_zero, List.mem_append]
  · simp [DeviceTwinCallback, TwinReportState, hh]

/-- Witness for `c7_desired_state_reconciliation`: the scenario
`"desired": {"StatusLED": true}` from the all-off state flips only the status
LED, drives its pin low and enqueues the four reports. -/
theorem c7_desired_state_reconciliation_witness :
    (DeviceTwinCallback baseState (some statusTrueDesiredPayload)).state.statusLedOn = true ∧
    (LedPin.statusLed, GPIO_Value_Type.Low) ∈
      (DeviceTwinCallback baseState (some statusTrueDesiredPayload)).gpioWrites ∧
    (DeviceTwinCallback baseState (some statusTrueDesiredPayload)).state.rLedOn = false ∧
    (DeviceTwinCallback baseState (some statusTrueDesiredPayload)).state.gLedOn = false ∧
    (DeviceTwinCallback baseState (some statusTrueDesiredPayload)).state.bLedOn = false ∧
    (DeviceTwinCallback baseState (some statusTrueDesiredPayload)).reports =
      ["\x7b\"StatusLED\":true\x7d", "\x7b\"RLED\":false\x7d",
       "\x7b\"GLED\":false\x7d", "\x7b\"BLED\":false\x7d"] := by
  have h := c7_desired_state_reconciliation baseState statusTrueDesiredPayload rfl
  have h1 := h.1 true (by decide)
  refine ⟨h1.1, by simpa using h1.2, by decide, by decide, by decide, ?_⟩
  rw [h.2.2.2.2]
  decide

/-- C10: implicit frame property of desired-state reconciliation — each of
the four actuator fields that is absent from the effective desired object or
present but not a Boolean leaves its in-memory flag unchanged and drives no
write to its pin, yet the unchanged value is still among the enqueued
reports. -/
theorem c10_twin_frame_property (s : AppState) (j : JSONValue)
    (hh : s.handle = true) :
    (json_object_dotget_boolean (effectiveDesired j) "StatusLED" = -1 →
       (DeviceTwinCallback s (some j)).state.statusLedOn = s.statusLedOn ∧
       (∀ v : GPIO_Value_Type,
          (LedPin.statusLed, v) ∉ (DeviceTwinCallback s (some j)).gpioWrites) ∧
       (if s.statusLedOn then "\x7b\"StatusLED\":true\x7d"
        else "\x7b\"StatusLED\":false\x7d") ∈ (DeviceTwinCallback s (some j)).reports) ∧
    (json_object_dotget_boolean (effectiveDesired j) "RLED" = -1 →
       (DeviceTwinCallback s (some j)).state.rLedOn = s.rLedOn ∧
       (∀ v : GPIO_Value_Type,
          (LedPin.rLed, v) ∉ (DeviceTwinCallback s (some j)).gpioWrites) ∧
       (if s.rLedOn then "\x7b\"RLED\":true\x7d"
        else "\x7b\"RLED\":false\x7d") ∈ (DeviceTwinCallback s (some j)).reports) ∧
    (json_object_dotget_boolean (effectiveDesired j) "GLED" = -1 →
       (DeviceTwinCallback s (some j)).state.gLedOn = s.gLedOn ∧
       (∀ v : GPIO_Value_Type,
          (LedPin.gLed, v) ∉ (DeviceTwinCallback s (some j)).gpioWrites) ∧
       (if s.gLedOn then "\x7b\"GLED\":true\x7d"
        else "\x7b\"GLED\":false\x7d") ∈ (DeviceTwinCallback s (some j)).reports) ∧
    (json_object_dotget_boolean (effectiveDesired j) "BLED" = -1 →
       (DeviceTwinCallback s (some j)).state.bLedOn = s.bLedOn ∧
       (∀ v : GPIO_Value_Type,
          (LedPin.bLed, v) ∉ (DeviceTwinCallback s (some j)).gpioWrites) ∧
       (if s.bLedOn then "\x7b\"BLED\":true\x7d"
        else "\x7b\"BLED\":false\x7d") ∈ (DeviceTwinCallback s (some j)).reports) := by
  refine ⟨?_, ?_, ?_, ?_⟩ <;> intro h <;>
    refine ⟨?_, fun v hv => twin_write_field_present s j _ v hv h, ?_⟩ <;>
    simp [DeviceTwinCallback, TwinReportState, hh, h, applyLedField_neg]

/-- Witness for `c10_twin_frame_property`: in the scenario payload `"RLED"`
is absent, so the red flag keeps its value, no red-pin write happens, and
`RLED:false` is still reported. -/
theorem c10_twin_frame_property_witness :
    (DeviceTwinCallback baseState (some statusTrueDesiredPayload)).state.rLedOn =
      baseState.rLedOn ∧
    ((LedPin.rLed, GPIO_Value_Type.Low) ∉
       (DeviceTwinCallback baseState (some statusTrueDesiredPayload)).gpioWrites) ∧
    "\x7b\"RLED\":false\x7d" ∈
      (DeviceTwinCallback baseState (some statusTrueDesiredPayload)).reports := by
  have h := (c10_twin_frame_property baseState statusTrueDesiredPayload rfl).2.1 (by decide)
  exact ⟨h.1, h.2.1 GPIO_Value_Type.Low, by simpa using h.2.2⟩

/-- The recorded button state always becomes the sample just read. -/
theorem isButtonPressed_snd (n old : GPIO_Value_Type) : (IsButtonPressed n old).2 = n := rfl

/-- One button poll tick with a successful consume and GPIO read: the
recorded state becomes the sample, the authentication state is untouched, a
telemetry emission is attempted exactly when `IsButtonPressed` reports a
press edge, and the message reaches the SDK only when additionally the
client is authenticated and the probe confirms internet access. -/
theorem buttonTick_spec (s : AppState) (n : GPIO_Value_Type) (probe : ProbeResult) :
    (ButtonPollTimerEventHandler s true (some n) probe).1.buttonState = n ∧
    (ButtonPollTimerEventHandler s true (some n) probe).1.auth = s.auth ∧
    (ButtonPollTimerEventHandler s true (some n) probe).2.1 =
      (IsButtonPressed n s.buttonState).1 ∧
    (ButtonPollTimerEventHandler s true (some n) probe).2.2 =
      (if (IsButtonPressed n s.buttonState).1 = true ∧ s.auth = .Authenticated ∧
          probe = ProbeResult.ok true then [buttonPressMessage] else []) := by
  by_cases hp : (IsButtonPressed n s.buttonState).1 = true
  · by_cases ha : s.auth = .Authenticated
    · rcases probe with conn | _ | _
      · cases conn <;>
          simp [ButtonPollTimerEventHandler, SendTelemetry,
                IsConnectionReadyToSendTelemetry, hp, ha, isButtonPressed_snd]
      · simp [ButtonPollTimerEventHandler, SendTelemetry,
              IsConnectionReadyToSendTelemetry, hp, ha, isButtonPressed_snd]
      · simp [ButtonPollTimerEventHandler, SendTelemetry,
              IsConnectionReadyToSendTelemetry, hp, ha, isButtonPressed_snd]
    · simp [ButtonPollTimerEventHandler, SendTelemetry, hp, ha, isButtonPressed_snd]
  · simp only [Bool.not_eq_true] at hp
    simp [ButtonPollTimerEventHandler, hp, isButtonPressed_snd]

/-- C9: over any sequence of button samples, a telemetry emission is
attempted exactly once per released-to-pressed edge (a low sample differing
from the previous recorded state) and never on a held-low sample; the
messages actually handed to the SDK are exactly one per edge when the client
is authenticated and the probe confirms internet access, and none otherwise —
a dropped event is not queued. -/
theorem c9_button_press_telemetry (s : AppState) (probe : ProbeResult)
    (samples : List GPIO_Value_Type) :
    (runButtonTicks probe s samples).2.1 = buttonEdgeCount s.buttonState samples ∧
    (runButtonTicks probe s samples).2.2 =
      (if s.auth = .Authenticated ∧ probe = ProbeResult.ok true then
         List.replicate (buttonEdgeCount s.buttonState samples) buttonPressMessage
       else []) := by
  induction samples generalizing s with
  | nil =>
    refine ⟨rfl, ?_⟩
    simp [runButtonTicks, buttonEdgeCount]
  | cons n rest ih =>
    obtain ⟨hbs, hauth, hatt, hmsg⟩ := buttonTick_spec s n probe
    obtain ⟨ih1, ih2⟩ := ih (ButtonPollTimerEventHandler s true (some n) probe).1
    rw [hbs] at ih1 ih2
    rw [hauth] at ih2
    simp only [runButtonTicks]
    constructor
    · rw [hatt, ih1, buttonEdgeCount]
    · rw [hmsg, ih2, buttonEdgeCount]
      by_cases hc : s.auth = .Authenticated ∧ probe = ProbeResult.ok true
      · rw [if_pos hc, if_pos hc]
        by_cases hp : (IsButtonPressed n s.buttonState).1 = true
        · rw [if_pos ⟨hp, hc.1, hc.2⟩, if_pos hp, List.replicate_add]
          rfl
        · rw [if_neg (fun hx => hp hx.1), if_neg hp]
          simp
      · rw [if_neg hc, if_neg hc, if_neg (fun hx => hc ⟨hx.2.1, hx.2.2⟩)]
        rfl
